import Mathlib

/-!
Verification of the news aggregation pipeline of `financial_agent_suite`
(`src/agents/news_retriever_agent.py`, class `NewsRetrieverAgent`).

The Python code is shallowly embedded as follows:

* `Article` mirrors the normalized article dictionaries built by the three
  fetch adapters (`source`, `headline`, `url`, `content`); the `headline`
  and `url` fields are `Option String` because `dict.get` may yield `None`.
* `RawArticle` mirrors one entry of a provider's parsed JSON payload
  (`title` / `url`, and `body` standing for `description` resp. `summary`).
* Each fetch adapter takes the outcome of its HTTP request and JSON parse
  as an `Except String (List RawArticle)`: `Except.error` models any
  exception inside the adapter's `try` block (network error, non-2xx via
  `raise_for_status`, malformed payload), which the adapter catches and
  converts to `[]`.
* The fuzzy similarity `fuzz.token_set_ratio` from the third-party
  `thefuzz` library is abstracted as a parameter
  `sim : String → String → Nat` (a 0–100 token-set score); theorems that
  need its symmetry take that as an explicit hypothesis.
* `run` takes the per-window provider responses as a function
  `resp : Nat → WindowResponses` (days-back ↦ the three responses), making
  the network the input of the pure model.
-/

namespace NewsRetrieverAgent

/-- One normalized news item, as built by the fetch adapters:
`{"source": ..., "headline": a.get("title"), "url": a.get("url"), "content": ... or ""}`. -/
structure Article where
  source : String
  headline : Option String
  url : Option String
  content : String
deriving Repr, DecidableEq

/-- One entry of a provider's parsed JSON payload (an element of
`response.json().get("articles", [])` resp. `.get("feed", [])`);
`body` stands for the `description` (NewsAPI, GNews) or `summary`
(Alpha Vantage) field. -/
structure RawArticle where
  title : Option String
  url : Option String
  body : Option String
deriving Repr, DecidableEq

/-- Python truthiness test `not article.get('headline')` negated: the article
has a headline and it is non-empty. -/
def headlineOk (a : Article) : Bool :=
  match a.headline with
  | some h => !h.isEmpty
  | none => false

/-- The headline with Python's `article.get('headline', '')` default. -/
def headlineOf (a : Article) : String :=
  a.headline.getD ""

/-- `similarity_threshold = 85` in `_deduplicate_articles`. -/
def similarity_threshold : Nat := 85

/-- Python's `str.lower()` (ASCII model): lower-case every character. -/
def lower (s : String) : String :=
  String.mk (s.data.map Char.toLower)

/-- Python substring membership `needle in hay` on lists of characters. -/
def infixOfB (needle : List Char) : List Char → Bool
  | [] => needle.isEmpty
  | c :: rest => needle.isPrefixOf (c :: rest) || infixOfB needle rest

/-- Python substring membership `needle in hay` for strings. -/
def substrB (needle hay : String) : Bool :=
  infixOfB needle.toList hay.toList

/-- The loop of `_deduplicate_articles`: process articles in arrival order,
skip articles with a falsy headline, discard an article when its headline has
similarity strictly above the threshold with some already-seen headline,
otherwise keep it and append its headline to `seen`. -/
def dedupLoop (sim : String → String → Nat) : List Article → List String → List Article
  | [], _ => []
  | a :: rest, seen =>
    if headlineOk a then
      if seen.any (fun s => similarity_threshold < sim (headlineOf a) s) then
        dedupLoop sim rest seen
      else
        a :: dedupLoop sim rest (seen ++ [headlineOf a])
    else
      dedupLoop sim rest seen

/-- `NewsRetrieverAgent._deduplicate_articles` (lines 69–79). -/
def deduplicate_articles (sim : String → String → Nat) (articles : List Article) : List Article :=
  dedupLoop sim articles []

/-- `NewsRetrieverAgent._build_search_query` (lines 86–93). -/
def build_search_query (company_name ticker : String) : String :=
  if company_name ≠ "" ∧ lower company_name ≠ lower ticker then
    s!"\"{company_name}\" OR \"{ticker} stock\""
  else
    s!"\"{ticker} stock\" OR \"{ticker} company\""

/-- Normalization shared by the NewsAPI and GNews adapters:
`{"source": src, "headline": a.get("title"), "url": a.get("url"), "content": a.get("description") or ""}`. -/
def normalize (src : String) (a : RawArticle) : Article :=
  { source := src, headline := a.title, url := a.url, content := a.body.getD "" }

/-- `NewsRetrieverAgent._fetch_from_newsapi` (lines 95–108): on any exception
return `[]`; on success map every payload article to a normalized record
(no client-side slice of the payload). -/
def fetch_from_newsapi (response : Except String (List RawArticle)) : List Article :=
  match response with
  | Except.error _ => []
  | Except.ok arts => arts.map (normalize "NewsAPI")

/-- `NewsRetrieverAgent._fetch_from_gnews` (lines 110–123): on any exception
return `[]`; on success map every payload article to a normalized record
(no client-side slice of the payload). -/
def fetch_from_gnews (response : Except String (List RawArticle)) : List Article :=
  match response with
  | Except.error _ => []
  | Except.ok arts => arts.map (normalize "GNews")

/-- `NewsRetrieverAgent._fetch_from_alpha_vantage` (lines 125–144): on any
exception return `[]`; on success slice the payload to its first 20 entries
(`articles = articles[:20]`) and normalize them. -/
def fetch_from_alpha_vantage (response : Except String (List RawArticle)) : List Article :=
  match response with
  | Except.error _ => []
  | Except.ok feed => (feed.take 20).map (fun a =>
      { source := "Alpha Vantage", headline := a.title, url := a.url, content := a.body.getD "" })

/-- The outcomes of the three provider requests for one search window. -/
structure WindowResponses where
  newsapi : Except String (List RawArticle)
  gnews : Except String (List RawArticle)
  alphaVantage : Except String (List RawArticle)

/-- Line 27–29 of `run`: the concatenation of the three providers' results for
one window. -/
def fetchWindow (r : WindowResponses) : List Article :=
  fetch_from_newsapi r.newsapi ++ fetch_from_gnews r.gnews ++
    fetch_from_alpha_vantage r.alphaVantage

/-- `search_windows = [7, 30]` in `run`. -/
def search_windows : List Nat := [7, 30]

/-- `min_articles_threshold = 10` in `run`. -/
def min_articles_threshold : Nat := 10

/-- The window-expansion loop of `run` (lines 24–33): for each window fetch
from all providers, extend the accumulator, and break as soon as the
accumulated count reaches the threshold. -/
def gatherLoop (resp : Nat → WindowResponses) : List Nat → List Article → List Article
  | [], acc => acc
  | d :: rest, acc =>
    let acc2 := acc ++ fetchWindow (resp d)
    if min_articles_threshold ≤ acc2.length then acc2
    else gatherLoop resp rest acc2

/-- All articles accumulated by the window-expansion loop of `run`. -/
def gatherArticles (resp : Nat → WindowResponses) : List Article :=
  gatherLoop resp search_windows []

/-- The relevance test of `run` (lines 40–54): the lower-cased headline
contains the lower-cased ticker, or a clean short name is available (truthy)
and the lower-cased headline contains it. -/
def relevantB (short_name stock_ticker : String) (a : Article) : Bool :=
  let name_to_check : Option String :=
    if short_name.isEmpty then none else some (lower short_name)
  let headline := lower (a.headline.getD "")
  substrB (lower stock_ticker) headline ||
    (match name_to_check with
     | some n => substrB n headline
     | none => false)

/-- The dictionary `{"articles": final_articles}` returned by `run`. -/
structure RunResult where
  articles : List Article
deriving Repr, DecidableEq

set_option linter.unusedVariables false in
/-- `NewsRetrieverAgent.run` (lines 19–67): gather articles over the widening
search windows, deduplicate, filter for relevance, and fall back to the
unfiltered deduplicated list when the filter removes everything; cap the
result at 20 articles. -/
def run (sim : String → String → Nat) (company_name short_name stock_ticker : String)
    (resp : Nat → WindowResponses) : RunResult :=
  let all_articles := gatherArticles resp
  let unique_articles := deduplicate_articles sim all_articles
  let relevant_articles := unique_articles.filter (relevantB short_name stock_ticker)
  let final_articles :=
    if relevant_articles.isEmpty && !unique_articles.isEmpty then
      unique_articles.take 20
    else
      relevant_articles.take 20
  { articles := final_articles }

/-! ### Helper lemmas about the deduplication loop -/

/-- Every article kept by the deduplication loop comes from the input and has a
non-empty headline. -/
theorem mem_dedupLoop {sim : String → String → Nat} :
    ∀ {l : List Article} {seen : List String} {a : Article},
      a ∈ dedupLoop sim l seen → a ∈ l ∧ headlineOk a = true := by
  intro l
  induction l with
  | nil => intro seen a h; simp [dedupLoop] at h
  | cons b rest ih =>
    intro seen a h
    cases hok : headlineOk b with
    | false =>
      rw [dedupLoop, hok] at h
      simp only [Bool.false_eq_true, if_false] at h
      obtain ⟨h1, h2⟩ := ih h
      exact ⟨List.mem_cons_of_mem _ h1, h2⟩
    | true =>
      rw [dedupLoop, hok] at h
      simp only [if_true] at h
      cases hdup : seen.any (fun s => similarity_threshold < sim (headlineOf b) s) with
      | true =>
        rw [hdup, if_pos rfl] at h
        obtain ⟨h1, h2⟩ := ih h
        exact ⟨List.mem_cons_of_mem _ h1, h2⟩
      | false =>
        rw [hdup] at h
        simp only [Bool.false_eq_true, if_false] at h
        rcases List.mem_cons.mp h with rfl | h
        · exact ⟨List.mem_cons_self _ _, hok⟩
        · obtain ⟨h1, h2⟩ := ih h
          exact ⟨List.mem_cons_of_mem _ h1, h2⟩

/-- Kept articles are below the similarity threshold against every headline
seen before the loop started, and pairwise: each later kept article is below
the threshold against each earlier kept article's headline. -/
theorem dedupLoop_pairwise (sim : String → String → Nat) (l : List Article) :
    ∀ seen : List String,
      (∀ b ∈ dedupLoop sim l seen, ∀ s ∈ seen,
        sim (headlineOf b) s ≤ similarity_threshold) ∧
      (dedupLoop sim l seen).Pairwise
        (fun a b => sim (headlineOf b) (headlineOf a) ≤ similarity_threshold) := by
  induction l with
  | nil => intro seen; constructor <;> simp [dedupLoop]
  | cons a rest ih =>
    intro seen
    cases hok : headlineOk a with
    | false =>
      rw [dedupLoop, hok]
      simpa using ih seen
    | true =>
      rw [dedupLoop, hok]
      simp only [if_true]
      cases hdup : seen.any (fun s => similarity_threshold < sim (headlineOf a) s) with
      | true => simpa using ih seen
      | false =>
        simp only [Bool.false_eq_true, if_false]
        have hseen : ∀ s ∈ seen, sim (headlineOf a) s ≤ similarity_threshold := by
          intro s hs
          have := List.any_eq_false.mp hdup s hs
          simpa [Nat.not_lt] using this
        constructor
        · intro b hb s hs
          rcases List.mem_cons.mp hb with rfl | hb
          · exact hseen s hs
          · exact (ih (seen ++ [headlineOf a])).1 b hb s (List.mem_append_left _ hs)
        · refine List.Pairwise.cons ?_ (ih (seen ++ [headlineOf a])).2
          intro b hb
          exact (ih (seen ++ [headlineOf a])).1 b hb (headlineOf a)
            (List.mem_append_right _ (List.mem_singleton.mpr rfl))

/-- The final article list of `run` is a sublist of the deduplicated list. -/
theorem run_articles_sublist (sim : String → String → Nat)
    (cn sn tk : String) (resp : Nat → WindowResponses) :
    (run sim cn sn tk resp).articles.Sublist
      (deduplicate_articles sim (gatherArticles resp)) := by
  rw [run]
  dsimp only
  split
  · exact List.take_sublist _ _
  · exact (List.take_sublist _ _).trans (List.filter_sublist _)

/-- A list of articles that already satisfies the deduplication invariants is
returned unchanged by the loop. -/
theorem dedupLoop_eq_self (sim : String → String → Nat) :
    ∀ (l : List Article) (seen : List String),
      (∀ a ∈ l, headlineOk a = true) →
      l.Pairwise (fun a b => sim (headlineOf b) (headlineOf a) ≤ similarity_threshold) →
      (∀ a ∈ l, ∀ s ∈ seen, sim (headlineOf a) s ≤ similarity_threshold) →
      dedupLoop sim l seen = l := by
  intro l
  induction l with
  | nil => intro seen _ _ _; rfl
  | cons a rest ih =>
    intro seen hok hpw hseen
    have hoka : headlineOk a = true := hok a (List.mem_cons_self _ _)
    have hdup : (seen.any fun s => similarity_threshold < sim (headlineOf a) s) = false := by
      rw [List.any_eq_false]
      intro s hs
      simpa [Nat.not_lt] using hseen a (List.mem_cons_self _ _) s hs
    rw [dedupLoop, hoka]
    simp only [if_true, hdup, Bool.false_eq_true, if_false]
    congr 1
    refine ih (seen ++ [headlineOf a]) (fun b hb => hok b (List.mem_cons_of_mem _ hb))
      (List.pairwise_cons.mp hpw).2 ?_
    intro b hb s hs
    rcases List.mem_append.mp hs with hs | hs
    · exact hseen b (List.mem_cons_of_mem _ hb) s hs
    · rw [List.mem_singleton.mp hs]
      exact (List.pairwise_cons.mp hpw).1 b hb

/-- An article with a non-empty headline that the loop discards is a near
duplicate: either of a headline seen before the loop started, or of an
article that arrived earlier and was kept. -/
theorem dedupLoop_discarded (sim : String → String → Nat) :
    ∀ (l : List Article) (seen : List String) (l₁ : List Article) (x : Article)
      (l₂ : List Article),
      l = l₁ ++ x :: l₂ → headlineOk x = true → x ∉ dedupLoop sim l seen →
      (∃ s ∈ seen, similarity_threshold < sim (headlineOf x) s) ∨
      ∃ y ∈ l₁, y ∈ dedupLoop sim l seen ∧
        similarity_threshold < sim (headlineOf x) (headlineOf y) := by
  intro l
  induction l with
  | nil =>
    intro seen l₁ x l₂ heq
    exact absurd heq (by simp)
  | cons a rest ih =>
    intro seen l₁ x l₂ heq hok hnot
    cases l₁ with
    | nil =>
      simp only [List.nil_append, List.cons.injEq] at heq
      obtain ⟨rfl, rfl⟩ := heq
      cases hdup : seen.any (fun s => similarity_threshold < sim (headlineOf a) s) with
      | false =>
        exfalso
        apply hnot
        rw [dedupLoop, hok]
        simp only [if_true, hdup, Bool.false_eq_true, if_false]
        exact List.mem_cons_self _ _
      | true =>
        left
        obtain ⟨s, hs, hsim⟩ := List.any_eq_true.mp hdup
        exact ⟨s, hs, by simpa using hsim⟩
    | cons b l₁ =>
      simp only [List.cons_append, List.cons.injEq] at heq
      obtain ⟨rfl, hrest⟩ := heq
      cases hokb : headlineOk a with
      | false =>
        have hskip : dedupLoop sim (a :: rest) seen = dedupLoop sim rest seen := by
          rw [dedupLoop, hokb]; simp
        rw [hskip] at hnot ⊢
        rcases ih seen l₁ x l₂ hrest hok hnot with h | ⟨y, hy, hymem, hsim⟩
        · exact Or.inl h
        · exact Or.inr ⟨y, List.mem_cons_of_mem _ hy, hymem, hsim⟩
      | true =>
        cases hdupb : seen.any (fun s => similarity_threshold < sim (headlineOf a) s) with
        | true =>
          have hskip : dedupLoop sim (a :: rest) seen = dedupLoop sim rest seen := by
            rw [dedupLoop, hokb]; simp [hdupb]
          rw [hskip] at hnot ⊢
          rcases ih seen l₁ x l₂ hrest hok hnot with h | ⟨y, hy, hymem, hsim⟩
          · exact Or.inl h
          · exact Or.inr ⟨y, List.mem_cons_of_mem _ hy, hymem, hsim⟩
        | false =>
          have hkeep : dedupLoop sim (a :: rest) seen
              = a :: dedupLoop sim rest (seen ++ [headlineOf a]) := by
            rw [dedupLoop, hokb]
            simp [hdupb]
          rw [hkeep] at hnot ⊢
          have hnot' : x ∉ dedupLoop sim rest (seen ++ [headlineOf a]) :=
            fun hx => hnot (List.mem_cons_of_mem _ hx)
          rcases ih (seen ++ [headlineOf a]) l₁ x l₂ hrest hok hnot' with
            ⟨s, hs, hsim⟩ | ⟨y, hy, hymem, hsim⟩
          · rcases List.mem_append.mp hs with hs | hs
            · exact Or.inl ⟨s, hs, hsim⟩
            · refine Or.inr ⟨a, List.mem_cons_self _ _, List.mem_cons_self _ _, ?_⟩
              rw [← List.mem_singleton.mp hs]
              exact hsim
          · exact Or.inr ⟨y, List.mem_cons_of_mem _ hy, List.mem_cons_of_mem _ hymem, hsim⟩

/-! ### Claim theorems -/

/-- C1: for every input, no two articles in the final returned list have
headlines whose (symmetric) fuzzy similarity is strictly greater than the
85/100 threshold, whichever branch (relevance-filtered or unfiltered
fallback) produced the output. -/
theorem run_no_near_duplicates (sim : String → String → Nat)
    (hsym : ∀ x y, sim x y = sim y x)
    (cn sn tk : String) (resp : Nat → WindowResponses) :
    (run sim cn sn tk resp).articles.Pairwise
      (fun a b => sim (headlineOf a) (headlineOf b) ≤ similarity_threshold ∧
        sim (headlineOf b) (headlineOf a) ≤ similarity_threshold) := by
  have hpw := (dedupLoop_pairwise sim (gatherArticles resp) []).2
  have hpw2 : (deduplicate_articles sim (gatherArticles resp)).Pairwise
      (fun a b => sim (headlineOf a) (headlineOf b) ≤ similarity_threshold ∧
        sim (headlineOf b) (headlineOf a) ≤ similarity_threshold) := by
    refine List.Pairwise.imp ?_ hpw
    intro a b h
    exact ⟨by rw [hsym]; exact h, h⟩
  exact hpw2.sublist (run_articles_sublist sim cn sn tk resp)

/-- C6: for all inputs, the article list returned by `run` contains at most
20 articles. -/
theorem run_at_most_20_articles (sim : String → String → Nat)
    (cn sn tk : String) (resp : Nat → WindowResponses) :
    (run sim cn sn tk resp).articles.length ≤ 20 := by
  rw [run]
  dsimp only
  split
  · simp [List.length_take_le]
  · simp [List.length_take_le]

/-- C7: no article with an empty or missing headline ever appears in the
returned article list. -/
theorem run_headlines_nonempty (sim : String → String → Nat)
    (cn sn tk : String) (resp : Nat → WindowResponses) :
    (run sim cn sn tk resp).articles.all headlineOk = true := by
  rw [List.all_eq_true]
  intro a ha
  exact (mem_dedupLoop ((run_articles_sublist sim cn sn tk resp).subset ha)).2

/-- C2: if the 7-day window already yields at least `min_articles_threshold`
(10) accumulated articles, the window-expansion loop stops there: the
accumulated list is exactly the 7-day fetch, and the result is independent of
what any provider would return for the 30-day window. -/
theorem window_expansion_stops_early (resp : Nat → WindowResponses)
    (h : min_articles_threshold ≤ (fetchWindow (resp 7)).length) :
    gatherArticles resp = fetchWindow (resp 7) ∧
    ∀ resp2 : Nat → WindowResponses, resp2 7 = resp 7 →
      gatherArticles resp2 = gatherArticles resp := by
  have key : ∀ r : Nat → WindowResponses, r 7 = resp 7 →
      gatherArticles r = fetchWindow (resp 7) := by
    intro r hr
    rw [gatherArticles, search_windows, gatherLoop]
    simp only [hr, List.nil_append]
    rw [if_pos h]
  refine ⟨key resp rfl, fun resp2 h2 => ?_⟩
  rw [key resp2 h2, key resp rfl]

/-- C3: when at least one deduplicated article passes the relevance test, the
returned list is exactly the first 20 articles of the deduplicated list that
pass the test (ticker-in-headline OR short-name-in-headline, both
case-insensitive), in arrival order. -/
theorem run_relevant_branch (sim : String → String → Nat)
    (cn sn tk : String) (resp : Nat → WindowResponses)
    (h : ∃ a ∈ deduplicate_articles sim (gatherArticles resp),
      relevantB sn tk a = true) :
    (run sim cn sn tk resp).articles =
      ((deduplicate_articles sim (gatherArticles resp)).filter
        (relevantB sn tk)).take 20 := by
  obtain ⟨a, ha, hrel⟩ := h
  have hne : (deduplicate_articles sim (gatherArticles resp)).filter (relevantB sn tk) ≠ [] :=
    List.ne_nil_of_mem (List.mem_filter.mpr ⟨ha, hrel⟩)
  rw [run]
  dsimp only
  rw [if_neg]
  simp [List.isEmpty_iff, hne]

/-- C4: when relevance filtering removes every article but the deduplicated
set is non-empty, the returned list is the first 20 deduplicated articles
verbatim rather than the empty list. -/
theorem run_fallback_branch (sim : String → String → Nat)
    (cn sn tk : String) (resp : Nat → WindowResponses)
    (h1 : (deduplicate_articles sim (gatherArticles resp)).filter (relevantB sn tk) = [])
    (h2 : deduplicate_articles sim (gatherArticles resp) ≠ []) :
    (run sim cn sn tk resp).articles =
      (deduplicate_articles sim (gatherArticles resp)).take 20 := by
  rw [run]
  dsimp only
  rw [if_pos]
  simp [List.isEmpty_iff, h1, h2]

/-- C5: when every provider request errors in every window, each fetch
contributes the empty list and `run` returns exactly `{"articles": []}`
(the adapters catch the exception, so none escapes to the caller). -/
theorem run_all_providers_fail (sim : String → String → Nat)
    (cn sn tk : String) (resp : Nat → WindowResponses)
    (hfail : ∀ d, (∃ e, (resp d).newsapi = Except.error e) ∧
      (∃ e, (resp d).gnews = Except.error e) ∧
      (∃ e, (resp d).alphaVantage = Except.error e)) :
    (∀ d, fetchWindow (resp d) = []) ∧
      run sim cn sn tk resp = { articles := [] } := by
  have hw : ∀ d, fetchWindow (resp d) = [] := by
    intro d
    obtain ⟨⟨e1, h1⟩, ⟨e2, h2⟩, ⟨e3, h3⟩⟩ := hfail d
    rw [fetchWindow, h1, h2, h3]
    rfl
  refine ⟨hw, ?_⟩
  have hg : gatherArticles resp = [] := by
    rw [gatherArticles, search_windows, gatherLoop]
    simp only [hw, List.append_nil, List.nil_append]
    rw [if_neg (by simp [min_articles_threshold])]
    rw [gatherLoop]
    simp only [hw, List.append_nil]
    rw [if_neg (by simp [min_articles_threshold])]
    rfl
  rw [run, hg]
  rfl

/-- C9: the search query is an OR of the quoted company name and
`"<ticker> stock"` when a company name is present and differs
case-insensitively from the ticker, and an OR of `"<ticker> stock"` and
`"<ticker> company"` otherwise. -/
theorem build_search_query_spec (company_name ticker : String) :
    (company_name ≠ "" → lower company_name ≠ lower ticker →
      build_search_query company_name ticker =
        s!"\"{company_name}\" OR \"{ticker} stock\"") ∧
    ((company_name = "" ∨ lower company_name = lower ticker) →
      build_search_query company_name ticker =
        s!"\"{ticker} stock\" OR \"{ticker} company\"") := by
  constructor
  · intro h1 h2
    rw [build_search_query, if_pos ⟨h1, h2⟩]
  · intro h
    rw [build_search_query, if_neg]
    rcases h with h | h
    · exact fun hc => hc.1 h
    · exact fun hc => hc.2 h

/-- C10: deduplication is idempotent, and every discarded article (with a
non-empty headline) is a near duplicate (similarity strictly above the
threshold) of a surviving article that arrived strictly earlier. -/
theorem dedup_idempotent_earliest_survivor (sim : String → String → Nat)
    (xs : List Article) :
    deduplicate_articles sim (deduplicate_articles sim xs) =
      deduplicate_articles sim xs ∧
    ∀ l₁ x l₂, xs = l₁ ++ x :: l₂ → headlineOk x = true →
      x ∉ deduplicate_articles sim xs →
      ∃ y ∈ l₁, y ∈ deduplicate_articles sim xs ∧
        similarity_threshold < sim (headlineOf x) (headlineOf y) := by
  constructor
  · refine dedupLoop_eq_self sim (deduplicate_articles sim xs) []
      (fun a ha => (mem_dedupLoop ha).2)
      (dedupLoop_pairwise sim xs []).2
      (by simp)
  · intro l₁ x l₂ heq hok hnot
    rcases dedupLoop_discarded sim xs [] l₁ x l₂ heq hok hnot with ⟨s, hs, _⟩ | h
    · exact absurd hs (List.not_mem_nil s)
    · exact h

/-! ### C8: per-adapter result caps -/

/-- A payload entry used in concrete instantiations. -/
def rawAcme : RawArticle :=
  { title := some "acme surges", url := none, body := none }

/-- A 21-entry provider payload. -/
def raws21 : List RawArticle := List.replicate 21 rawAcme

/-- C8 counterexample: the NewsAPI adapter applies no client-side cap — on a
payload of 21 articles it returns 21 normalized records (and so does the
GNews adapter), contradicting the claim that every adapter caps its parsed
payload at 20. -/
theorem newsapi_adapter_no_cap :
    (fetch_from_newsapi (Except.ok raws21)).length = 21 ∧
    (fetch_from_gnews (Except.ok raws21)).length = 21 := by
  constructor <;> rfl

/-- C8 amended: only the Alpha Vantage adapter enforces a client-side cap of
20 on the parsed payload; the NewsAPI and GNews adapters return one
normalized record per payload article, with no client-side cap. -/
theorem adapter_caps_amended :
    (∀ r, (fetch_from_alpha_vantage r).length ≤ 20) ∧
    (∀ arts, (fetch_from_newsapi (Except.ok arts)).length = arts.length) ∧
    (∀ arts, (fetch_from_gnews (Except.ok arts)).length = arts.length) := by
  refine ⟨fun r => ?_, fun arts => ?_, fun arts => ?_⟩
  · cases r with
    | error e => simp [fetch_from_alpha_vantage]
    | ok feed =>
      simp only [fetch_from_alpha_vantage, List.length_map]
      exact List.length_take_le 20 feed
  · simp [fetch_from_newsapi]
  · simp [fetch_from_gnews]

/-! ### Concrete instantiations for the witnesses -/

/-- A degenerate similarity scorer: every pair of headlines scores 0. -/
def simZero : String → String → Nat := fun _ _ => 0

/-- A degenerate similarity scorer: every pair of headlines scores 100. -/
def simAll : String → String → Nat := fun _ _ => 100

/-- A second payload entry, distinct from `rawAcme`. -/
def rawOther : RawArticle :=
  { title := some "milk prices climb", url := none, body := none }

/-- Provider responses in which every request fails. -/
def respFail : Nat → WindowResponses := fun _ =>
  { newsapi := Except.error "network error",
    gnews := Except.error "network error",
    alphaVantage := Except.error "network error" }

/-- Provider responses in which NewsAPI returns ten articles per window and
the other providers fail. -/
def respTen : Nat → WindowResponses := fun _ =>
  { newsapi := Except.ok (List.replicate 10 rawAcme),
    gnews := Except.error "network error",
    alphaVantage := Except.error "network error" }

/-- Provider responses in which NewsAPI returns one article per window and
the other providers fail. -/
def respOne : Nat → WindowResponses := fun _ =>
  { newsapi := Except.ok [rawAcme],
    gnews := Except.error "network error",
    alphaVantage := Except.error "network error" }

/-- Provider responses whose only article mentions neither ticker nor short
name. -/
def respOther : Nat → WindowResponses := fun _ =>
  { newsapi := Except.ok [rawOther],
    gnews := Except.error "network error",
    alphaVantage := Except.error "network error" }

/-- The input list of the C10 witness: two distinct articles, the second a
near duplicate of the first under `simAll`. -/
def xsW : List Article :=
  [normalize "NewsAPI" rawAcme, normalize "GNews" rawOther]

/-! ### Witnesses -/

/-- C1 witness at a concrete symmetric scorer and concrete responses. -/
theorem run_no_near_duplicates_witness :
    (run simZero "Acme Corporation" "Acme" "ACME" respOne).articles.Pairwise
      (fun a b => simZero (headlineOf a) (headlineOf b) ≤ similarity_threshold ∧
        simZero (headlineOf b) (headlineOf a) ≤ similarity_threshold) :=
  run_no_near_duplicates simZero (fun _ _ => rfl) "Acme Corporation" "Acme" "ACME" respOne

/-- C2 witness: ten accumulated articles in the 7-day window stop the loop. -/
theorem window_expansion_stops_early_witness :
    gatherArticles respTen = fetchWindow (respTen 7) :=
  (window_expansion_stops_early respTen (by decide)).1

/-- C3 witness: with a relevant article present, the output is the filtered
prefix. -/
theorem run_relevant_branch_witness :
    (run simZero "Acme Corporation" "Acme" "ACME" respOne).articles =
      ((deduplicate_articles simZero (gatherArticles respOne)).filter
        (relevantB "Acme" "ACME")).take 20 :=
  run_relevant_branch simZero "Acme Corporation" "Acme" "ACME" respOne (by decide)

/-- C4 witness: with no relevant article but a non-empty deduplicated set,
the output is the unfiltered prefix. -/
theorem run_fallback_branch_witness :
    (run simZero "Acme Corporation" "Acme" "ACME" respOther).articles =
      (deduplicate_articles simZero (gatherArticles respOther)).take 20 :=
  run_fallback_branch simZero "Acme Corporation" "Acme" "ACME" respOther
    (by decide) (by decide)

/-- C5 witness: with every provider failing, `run` returns no articles. -/
theorem run_all_providers_fail_witness :
    run simZero "Acme Corporation" "Acme" "ACME" respFail = { articles := [] } :=
  (run_all_providers_fail simZero "Acme Corporation" "Acme" "ACME" respFail
    (fun _ => ⟨⟨"network error", rfl⟩, ⟨"network error", rfl⟩,
      ⟨"network error", rfl⟩⟩)).2

/-- C9 witness: a company name distinct from the ticker selects the first
query form. -/
theorem build_search_query_spec_witness :
    build_search_query "Apple Inc" "AAPL" = "\"Apple Inc\" OR \"AAPL stock\"" :=
  (build_search_query_spec "Apple Inc" "AAPL").1 (by decide) (by decide)

/-- C10 witness: under `simAll` the second article of `xsW` is discarded and
its surviving earlier near duplicate is the first. -/
theorem dedup_idempotent_earliest_survivor_witness :
    ∃ y ∈ [normalize "NewsAPI" rawAcme],
      y ∈ deduplicate_articles simAll xsW ∧
        similarity_threshold < simAll (headlineOf (normalize "GNews" rawOther))
          (headlineOf y) :=
  (dedup_idempotent_earliest_survivor simAll xsW).2
    [normalize "NewsAPI" rawAcme] (normalize "GNews" rawOther) []
    rfl (by decide) (by decide)

end NewsRetrieverAgent
